import Mathlib

/-!
Shallow embedding of the posture-analysis core of `src/backend/app.py`
(class `PostureAnalyzer`): the angle calculator, the exercise classifier,
the two posture rule sets and the result composer, together with theorems
settling the specification claims about them.

Python floats are modelled over the reals; the IEEE special values that
the one division in `calculate_angle` can produce (NaN, ±Inf) are modelled
explicitly, because numpy produces them with a `RuntimeWarning` instead of
raising, so the `except` fallback in the source never fires on numeric
input.
-/

namespace PostureApp

/-- A 2D point: the two-element numpy arrays `calculate_angle` builds from
the `.x` / `.y` fields of its arguments. -/
structure Pt where
  x : ℝ
  y : ℝ

/-- Value of a numpy floating-point computation: an ordinary real number or
one of the IEEE special values reachable in `calculate_angle` (`0/0` gives
NaN, `x/0` with `x ≠ 0` gives ±Inf; numpy warns, it does not raise). -/
inductive NpFloat where
  | num (x : ℝ)
  | nan
  | pinf
  | ninf

/-- numpy scalar division `a / b`: IEEE behaviour at `b = 0`. -/
noncomputable def npDiv (a b : ℝ) : NpFloat :=
  if b = 0 then
    if a = 0 then .nan else if a > 0 then .pinf else .ninf
  else .num (a / b)

/-- `np.clip v lo hi`: NaN passes through, infinities clamp to the bounds. -/
def npClip (v : NpFloat) (lo hi : ℝ) : NpFloat :=
  match v with
  | .num x => .num (max lo (min hi x))
  | .nan => .nan
  | .pinf => .num hi
  | .ninf => .num lo

/-- `np.arccos`: NaN outside `[-1, 1]` (and on NaN / infinite input). -/
noncomputable def npArccos : NpFloat → NpFloat
  | .num x => if x < -1 ∨ 1 < x then .nan else .num (Real.arccos x)
  | _ => .nan

/-- `np.degrees`: radians to degrees; special values pass through. -/
noncomputable def npDegrees : NpFloat → NpFloat
  | .num x => .num (x * (180 / Real.pi))
  | .nan => .nan
  | .pinf => .pinf
  | .ninf => .ninf

/-- `np.linalg.norm` of a 2-vector. -/
noncomputable def npNorm (p : Pt) : ℝ := Real.sqrt (p.x ^ 2 + p.y ^ 2)

/-- `PostureAnalyzer.calculate_angle` (src/backend/app.py:48-77).
The `except` branch returning `0` is unreachable for numeric points: the
only failure mode of the body, division by a zero norm product, makes
numpy emit a warning and produce NaN (or ±Inf), not an exception. -/
noncomputable def calculate_angle (point1 point2 point3 : Pt) : NpFloat :=
  let ba : Pt := ⟨point1.x - point2.x, point1.y - point2.y⟩
  let bc : Pt := ⟨point3.x - point2.x, point3.y - point2.y⟩
  let cosine_angle := npDiv (ba.x * bc.x + ba.y * bc.y) (npNorm ba * npNorm bc)
  npDegrees (npArccos (npClip cosine_angle (-1) 1))

/-- Python comparison `v < r` on a possibly-special numpy float: NaN
compares false. -/
def npLt (v : NpFloat) (r : ℝ) : Prop :=
  match v with
  | .num x => x < r
  | .nan => False
  | .pinf => False
  | .ninf => True

noncomputable instance npLtDec (v : NpFloat) (r : ℝ) : Decidable (npLt v r) :=
  match v with
  | .num x => inferInstanceAs (Decidable (x < r))
  | .nan => isFalse id
  | .pinf => isFalse id
  | .ninf => isTrue trivial

/-- Python `r - v` (used for `180 - neck_angle`): NaN propagates. -/
def npSubL (r : ℝ) : NpFloat → NpFloat
  | .num x => .num (r - x)
  | .nan => .nan
  | .pinf => .ninf
  | .ninf => .pinf

/-- The result is an ordinary number (not NaN/Inf). -/
def NpFloat.isNum : NpFloat → Prop
  | .num _ => True
  | _ => False

/-- The real value of an ordinary number, `0` on special values. -/
def NpFloat.val : NpFloat → ℝ
  | .num x => x
  | _ => 0

/-- C1: the claim says degenerate input (all three points coincident, so
both vectors have zero length) makes `calculate_angle` return `0`.  In the
code the cosine is `0/0`, which numpy turns into NaN with a warning — no
exception is raised, so the `except` branch returning `0` never runs and
the function returns NaN, contradicting the claim (and the code's own
`Return 0 if calculation fails` comment). -/
theorem c1_degenerate_angle_returns_nan :
    calculate_angle ⟨1/2, 1/2⟩ ⟨1/2, 1/2⟩ ⟨1/2, 1/2⟩ = NpFloat.nan := by
  show npDegrees (npArccos (npClip
      (npDiv ((1/2 - 1/2) * (1/2 - 1/2) + (1/2 - 1/2) * (1/2 - 1/2))
        (npNorm ⟨1/2 - 1/2, 1/2 - 1/2⟩ * npNorm ⟨1/2 - 1/2, 1/2 - 1/2⟩)) (-1) 1)) = NpFloat.nan
  have h0 : ((1:ℝ)/2 - 1/2) = 0 := by norm_num
  rw [h0]
  have hn : npNorm ⟨(0:ℝ), (0:ℝ)⟩ = 0 := by
    simp [npNorm]
  rw [hn]
  have hdiv : npDiv ((0:ℝ) * 0 + 0 * 0) ((0:ℝ) * 0) = NpFloat.nan := by
    simp [npDiv]
  rw [hdiv]
  rfl

/-- A MediaPipe pose landmark as the analyzer can read it; only `x` and
`y` are ever accessed by the analysis code. -/
structure Landmark where
  x : ℝ
  y : ℝ
  z : ℝ
  visibility : ℝ

/-- The 2D view of a landmark: the analyzer reads only `.x` and `.y`. -/
def Landmark.pt (l : Landmark) : Pt := ⟨l.x, l.y⟩

/-- The `mp_pose.PoseLandmark` indices the analyzer reads (the full
MediaPipe enum has 33 entries; only these ten are ever used). -/
inductive PoseLandmark where
  | left_shoulder
  | right_shoulder
  | left_ear
  | right_ear
  | left_hip
  | right_hip
  | left_knee
  | right_knee
  | left_ankle
  | right_ankle
deriving DecidableEq

/-- The landmark container handed to the rule sets
(`results.pose_landmarks.landmark`): indexing with a missing landmark
raises in Python, so lookup is fallible. -/
def Landmarks := PoseLandmark → Option Landmark

/-- `landmarks[idx]`: raises (an exception, modelled in `Except`) when the
landmark is absent. -/
def getLm (landmarks : Landmarks) (idx : PoseLandmark) : Except String Landmark :=
  match landmarks idx with
  | some l => .ok l
  | none => .error "landmark missing"

/-- Midpoint of a left/right landmark pair (the `avg_*` lists at
src/backend/app.py:106-117, then wrapped into ad-hoc point objects). -/
noncomputable def deskAvg (a b : Pt) : Pt := ⟨(a.x + b.x) / 2, (a.y + b.y) / 2⟩

/-- The three desk measurements stored in `details`
(src/backend/app.py:126,143,144). -/
structure DeskDetails where
  neck_angle : NpFloat
  back_angle : NpFloat
  shoulder_alignment : Bool

/-- Body of `analyze_desk_posture` after the six landmark lookups
(src/backend/app.py:105-146), over the 2D views of the landmarks. -/
noncomputable def deskCore (left_shoulder right_shoulder left_ear right_ear left_hip right_hip : Pt) :
    List String × DeskDetails :=
  let avg_shoulder := deskAvg left_shoulder right_shoulder
  let avg_ear := deskAvg left_ear right_ear
  let avg_hip := deskAvg left_hip right_hip
  let neck_angle := calculate_angle avg_ear avg_shoulder avg_hip
  let shoulder_hip_horizontal_diff := |avg_shoulder.x - avg_hip.x|
  let shoulder_level_diff := |left_shoulder.y - right_shoulder.y|
  let issues : List String :=
    (if npLt neck_angle 150 then ["Forward head posture detected"] else []) ++
    (if shoulder_hip_horizontal_diff > 0.1 then ["Slouching detected"] else []) ++
    (if shoulder_level_diff > 0.05 then ["Uneven shoulders"] else [])
  (issues,
    { neck_angle := neck_angle
      back_angle := npSubL 180 neck_angle
      shoulder_alignment := decide (shoulder_hip_horizontal_diff < 0.1) })

/-- `PostureAnalyzer.analyze_desk_posture` (src/backend/app.py:79-146). -/
noncomputable def analyze_desk_posture (landmarks : Landmarks) :
    Except String (List String × DeskDetails) := do
  let left_shoulder ← getLm landmarks .left_shoulder
  let right_shoulder ← getLm landmarks .right_shoulder
  let left_ear ← getLm landmarks .left_ear
  let right_ear ← getLm landmarks .right_ear
  let left_hip ← getLm landmarks .left_hip
  let right_hip ← getLm landmarks .right_hip
  return deskCore left_shoulder.pt right_shoulder.pt left_ear.pt right_ear.pt
    left_hip.pt right_hip.pt

/-- The three squat measurements stored in `details`
(src/backend/app.py:183,189,201). -/
structure SquatDetails where
  knee_toe_alignment : Bool
  back_angle : NpFloat
  knee_tracking : Bool

/-- Body of `analyze_squat_posture` after the eight landmark lookups
(src/backend/app.py:176-203), over the 2D views of the landmarks
(`right_hip` and `right_shoulder` are fetched but never used, exactly as
in the source). -/
noncomputable def squatCore
    (left_knee right_knee left_ankle right_ankle left_hip right_hip
      left_shoulder right_shoulder : Pt) :
    List String × SquatDetails :=
  let left_knee_over_toe := left_knee.x > left_ankle.x
  let right_knee_over_toe := right_knee.x > right_ankle.x
  let back_angle := calculate_angle left_shoulder left_hip left_knee
  let knee_tracking_left := |left_knee.x - left_ankle.x| < 0.1
  let knee_tracking_right := |right_knee.x - right_ankle.x| < 0.1
  let issues : List String :=
    (if left_knee_over_toe ∨ right_knee_over_toe then ["Knees extending beyond toes"] else []) ++
    (if npLt back_angle 150 then ["Rounded back detected"] else []) ++
    (if ¬ (knee_tracking_left ∧ knee_tracking_right) then ["Poor knee tracking"] else [])
  (issues,
    { knee_toe_alignment := decide (¬ (left_knee_over_toe ∨ right_knee_over_toe))
      back_angle := back_angle
      knee_tracking := decide (knee_tracking_left ∧ knee_tracking_right) })

/-- `PostureAnalyzer.analyze_squat_posture` (src/backend/app.py:148-203). -/
noncomputable def analyze_squat_posture (landmarks : Landmarks) :
    Except String (List String × SquatDetails) := do
  let left_knee ← getLm landmarks .left_knee
  let right_knee ← getLm landmarks .right_knee
  let left_ankle ← getLm landmarks .left_ankle
  let right_ankle ← getLm landmarks .right_ankle
  let left_hip ← getLm landmarks .left_hip
  let right_hip ← getLm landmarks .right_hip
  let left_shoulder ← getLm landmarks .left_shoulder
  let right_shoulder ← getLm landmarks .right_shoulder
  return squatCore left_knee.pt right_knee.pt left_ankle.pt right_ankle.pt
    left_hip.pt right_hip.pt left_shoulder.pt right_shoulder.pt

/-- `PostureAnalyzer.detect_exercise_type` (src/backend/app.py:205-226).
`right_knee` is looked up (and can therefore raise) but is not used in the
angle, exactly as in the source. -/
noncomputable def detect_exercise_type (landmarks : Landmarks) : Except String String := do
  let left_knee ← getLm landmarks .left_knee
  let right_knee ← getLm landmarks .right_knee
  let left_hip ← getLm landmarks .left_hip
  let right_hip ← getLm landmarks .right_hip
  let knee_hip_angle := calculate_angle left_knee.pt left_hip.pt right_hip.pt
  let _ := right_knee
  return if npLt knee_hip_angle 120 then "squat" else "desk_sitting"

/-- The `details` dict of the returned result: empty on the no-person and
error paths, rule-set specific otherwise. -/
inductive Details where
  | empty
  | desk (d : DeskDetails)
  | squat (d : SquatDetails)

/-- The JSON payload `analyze_frame` returns. `exercise_type` and
`issues` are `Option`s because the no-person and error dicts omit those
keys entirely (src/backend/app.py:250-256, 289-294). -/
structure AnalysisResult where
  is_bad_posture : Bool
  message : String
  confidence : ℝ
  details : Details
  exercise_type : Option String
  issues : Option (List String)

/-- The classification-and-rules part of the `try` block of
`analyze_frame` (src/backend/app.py:260-266): any exception escaping the
lookups propagates to the `except` handler, modelled as the `Except`
error. -/
noncomputable def analyze_core (landmarks : Landmarks) :
    Except String (String × List String × Details) := do
  let exercise_type ← detect_exercise_type landmarks
  if exercise_type = "squat" then
    let r ← analyze_squat_posture landmarks
    return (exercise_type, r.1, .squat r.2)
  else
    let r ← analyze_desk_posture landmarks
    return (exercise_type, r.1, .desk r.2)

/-- Python's `str.replace` for the single-character pattern the source
uses (`exercise_type.replace('_', ' ')`): replace every occurrence of the
character `c` by `r`. -/
def pyReplace (s : String) (c r : Char) : String :=
  ⟨s.data.map (fun ch => if ch = c then r else ch)⟩

/-- Result composition (src/backend/app.py:268-285). -/
noncomputable def compose (exercise_type : String) (issues : List String)
    (details : Details) : AnalysisResult :=
  let is_bad_posture := decide (issues.length > 0)
  { is_bad_posture := is_bad_posture
    message :=
      if issues.length > 0 then "Bad posture detected: " ++ String.intercalate ", " issues
      else "Good " ++ pyReplace exercise_type (Char.ofNat 95) (Char.ofNat 32) ++ " posture!"
    confidence := max 0.5 (1.0 - issues.length * 0.2)
    details := details
    exercise_type := some exercise_type
    issues := some issues }

/-- `PostureAnalyzer.analyze_frame` (src/backend/app.py:228-294), taking
the landmark-source output directly: image decoding and `pose.process`
are the external boundary, and `none` is the
`not results.pose_landmarks` case. -/
noncomputable def analyze_frame (pose_landmarks : Option Landmarks) : AnalysisResult :=
  match pose_landmarks with
  | none =>
      { is_bad_posture := false
        message := "No person detected in frame"
        confidence := 0.0
        details := .empty
        exercise_type := none
        issues := none }
  | some landmarks =>
      match analyze_core landmarks with
      | .ok r => compose r.1 r.2.1 r.2.2
      | .error e =>
          { is_bad_posture := false
            message := "Analysis error: " ++ e
            confidence := 0.0
            details := .empty
            exercise_type := none
            issues := none }

/-- Modelled from the spec: the JSON payload has no `subject_detected`
key anywhere in the source; spec §3's invariant that `exercise_type` is
null iff `subject_detected == false` determines it from the payload. -/
def subject_detected (r : AnalysisResult) : Bool := r.exercise_type.isSome

/-- Coordinate equality of optional landmarks: same presence and same
`x`/`y`; the unused `z`/`visibility` fields are unconstrained. -/
def coordEq : Option Landmark → Option Landmark → Prop
  | none, none => True
  | some a, some b => a.x = b.x ∧ a.y = b.y
  | _, _ => False

/-- Landmarks whose shoulder midpoint sits exactly 0.1 to the right of the
hip midpoint, with ear, shoulder and hip midpoints on one horizontal line
(neck angle exactly 180) and level shoulders. -/
noncomputable def lmC3 : Landmarks := fun i =>
  match i with
  | .left_ear => some ⟨1/5, 1, 0, 1⟩
  | .right_ear => some ⟨1/5, 1, 0, 1⟩
  | .left_shoulder => some ⟨1/10, 1, 0, 1⟩
  | .right_shoulder => some ⟨1/10, 1, 0, 1⟩
  | .left_hip => some ⟨0, 1, 0, 1⟩
  | .right_hip => some ⟨0, 1, 0, 1⟩
  | _ => some ⟨0, 0, 0, 1⟩

/-- Landmarks whose knee-hip angle is exactly 120 degrees: the vertex at
the origin, one ray along the x-axis, the other at 120 degrees. -/
noncomputable def lmC4 : Landmarks := fun i =>
  match i with
  | .left_knee => some ⟨1, 0, 0, 1⟩
  | .left_hip => some ⟨0, 0, 0, 1⟩
  | .right_hip => some ⟨-(1/2), Real.sqrt 3 / 2, 0, 1⟩
  | _ => some ⟨0, 0, 0, 1⟩

/-- A complete landmark set in a perfect desk-sitting pose: knee-hip angle
180 (so classified desk), ear/shoulder/hip midpoints vertically aligned
(neck angle 180), level shoulders, shoulder midpoint above hip midpoint. -/
noncomputable def lmC5 : Landmarks := fun i =>
  match i with
  | .left_ear => some ⟨1/2, 0, 0, 1⟩
  | .right_ear => some ⟨1/2, 0, 0, 1⟩
  | .left_shoulder => some ⟨1/2, 1, 0, 1⟩
  | .right_shoulder => some ⟨1/2, 1, 0, 1⟩
  | .left_hip => some ⟨0, 2, 0, 1⟩
  | .right_hip => some ⟨1, 2, 0, 1⟩
  | .left_knee => some ⟨-1, 2, 0, 1⟩
  | .right_knee => some ⟨2, 2, 0, 1⟩
  | .left_ankle => some ⟨0, 3, 0, 1⟩
  | .right_ankle => some ⟨1, 3, 0, 1⟩

/-- Same perfect desk pose as `lmC5`, shifted right by 10: a second,
distinct input for the confidence-values witness. -/
noncomputable def lmC9 : Landmarks := fun i =>
  match i with
  | .left_ear => some ⟨21/2, 0, 0, 1⟩
  | .right_ear => some ⟨21/2, 0, 0, 1⟩
  | .left_shoulder => some ⟨21/2, 1, 0, 1⟩
  | .right_shoulder => some ⟨21/2, 1, 0, 1⟩
  | .left_hip => some ⟨10, 2, 0, 1⟩
  | .right_hip => some ⟨11, 2, 0, 1⟩
  | .left_knee => some ⟨9, 2, 0, 1⟩
  | .right_knee => some ⟨12, 2, 0, 1⟩
  | .left_ankle => some ⟨10, 3, 0, 1⟩
  | .right_ankle => some ⟨11, 3, 0, 1⟩

/-- An otherwise-populated landmark set from which the right knee is
missing, so the classifier's lookup raises. -/
noncomputable def lmC6 : Landmarks := fun i =>
  match i with
  | .right_knee => none
  | _ => some ⟨0, 0, 0, 1⟩

/-- A perfect-squat landmark set: knee-hip angle 90 (classified squat),
knees directly above the ankles, straight back (angle 180). -/
noncomputable def lmC8 : Landmarks := fun i =>
  match i with
  | .left_knee => some ⟨0, 1, 0, 1⟩
  | .right_knee => some ⟨0, 1, 0, 1⟩
  | .left_ankle => some ⟨0, 0, 0, 1⟩
  | .right_ankle => some ⟨0, 0, 0, 1⟩
  | .left_hip => some ⟨0, 0, 0, 1⟩
  | .right_hip => some ⟨1, 0, 0, 1⟩
  | .left_shoulder => some ⟨0, -1, 0, 1⟩
  | .right_shoulder => some ⟨1, -1, 0, 1⟩
  | .left_ear => some ⟨0, -2, 0, 1⟩
  | .right_ear => some ⟨1, -2, 0, 1⟩

/-- Two landmark sets with identical coordinates but different `z` and
`visibility` values. -/
noncomputable def lmC10a : Landmarks := fun _ => some ⟨1/2, 1/2, 0, 1⟩

noncomputable def lmC10b : Landmarks := fun _ => some ⟨1/2, 1/2, 7, 0⟩

lemma exBindOk {α β : Type} (a : α) (f : α → Except String β) :
    (Except.ok a >>= f : Except String β) = f a := rfl

lemma exBindErr {α β : Type} (e : String) (f : α → Except String β) :
    (Except.error e >>= f : Except String β) = .error e := rfl

lemma exPure {α : Type} (a : α) : (pure a : Except String α) = .ok a := rfl

lemma npNorm_pos (p : Pt) (h : ¬ (p.x = 0 ∧ p.y = 0)) : 0 < npNorm p := by
  rcases not_and_or.mp h with hx | hy
  · apply Real.sqrt_pos.mpr
    have h2 : 0 < p.x ^ 2 := by positivity
    nlinarith [sq_nonneg p.y]
  · apply Real.sqrt_pos.mpr
    have h2 : 0 < p.y ^ 2 := by positivity
    nlinarith [sq_nonneg p.x]

/-- With both vectors nonzero the division is by a positive number, so the
whole computation stays inside ordinary real numbers. -/
lemma calculate_angle_nondegen (p1 p2 p3 : Pt)
    (h1 : ¬ (p1.x - p2.x = 0 ∧ p1.y - p2.y = 0))
    (h2 : ¬ (p3.x - p2.x = 0 ∧ p3.y - p2.y = 0)) :
    calculate_angle p1 p2 p3 =
      .num (Real.arccos (max (-1) (min 1
        (((p1.x - p2.x) * (p3.x - p2.x) + (p1.y - p2.y) * (p3.y - p2.y)) /
          (npNorm ⟨p1.x - p2.x, p1.y - p2.y⟩ * npNorm ⟨p3.x - p2.x, p3.y - p2.y⟩)))) *
        (180 / Real.pi)) := by
  have hba : 0 < npNorm ⟨p1.x - p2.x, p1.y - p2.y⟩ := npNorm_pos _ h1
  have hbc : 0 < npNorm ⟨p3.x - p2.x, p3.y - p2.y⟩ := npNorm_pos _ h2
  have hden : npNorm ⟨p1.x - p2.x, p1.y - p2.y⟩ * npNorm ⟨p3.x - p2.x, p3.y - p2.y⟩ ≠ 0 :=
    ne_of_gt (mul_pos hba hbc)
  show npDegrees (npArccos (npClip (npDiv _ _) (-1) 1)) = _
  rw [npDiv, if_neg hden]
  have hclip : npClip
      (.num (((p1.x - p2.x) * (p3.x - p2.x) + (p1.y - p2.y) * (p3.y - p2.y)) /
        (npNorm ⟨p1.x - p2.x, p1.y - p2.y⟩ * npNorm ⟨p3.x - p2.x, p3.y - p2.y⟩)))
      (-1) 1 = .num (max (-1) (min 1
        (((p1.x - p2.x) * (p3.x - p2.x) + (p1.y - p2.y) * (p3.y - p2.y)) /
          (npNorm ⟨p1.x - p2.x, p1.y - p2.y⟩ * npNorm ⟨p3.x - p2.x, p3.y - p2.y⟩)))) := rfl
  rw [hclip]
  have hbound : ¬ ((max (-1) (min 1
      (((p1.x - p2.x) * (p3.x - p2.x) + (p1.y - p2.y) * (p3.y - p2.y)) /
        (npNorm ⟨p1.x - p2.x, p1.y - p2.y⟩ * npNorm ⟨p3.x - p2.x, p3.y - p2.y⟩)))) < -1 ∨
      1 < (max (-1) (min 1
      (((p1.x - p2.x) * (p3.x - p2.x) + (p1.y - p2.y) * (p3.y - p2.y)) /
        (npNorm ⟨p1.x - p2.x, p1.y - p2.y⟩ * npNorm ⟨p3.x - p2.x, p3.y - p2.y⟩))))) := by
    push_neg
    refine ⟨le_max_left _ _, max_le (by norm_num) (min_le_left _ _)⟩
  rw [npArccos, if_neg hbound]
  rfl

/-- C7: on non-degenerate vectors the angle is an ordinary number in
[0, 180] degrees and is symmetric in its outer arguments. -/
theorem c7_angle_range_symm (p1 p2 p3 : Pt)
    (h1 : ¬ (p1.x - p2.x = 0 ∧ p1.y - p2.y = 0))
    (h2 : ¬ (p3.x - p2.x = 0 ∧ p3.y - p2.y = 0)) :
    (calculate_angle p1 p2 p3).isNum ∧
    0 ≤ (calculate_angle p1 p2 p3).val ∧
    (calculate_angle p1 p2 p3).val ≤ 180 ∧
    calculate_angle p1 p2 p3 = calculate_angle p3 p2 p1 := by
  rw [calculate_angle_nondegen p1 p2 p3 h1 h2, calculate_angle_nondegen p3 p2 p1 h2 h1]
  have hdot : (p3.x - p2.x) * (p1.x - p2.x) + (p3.y - p2.y) * (p1.y - p2.y) =
      (p1.x - p2.x) * (p3.x - p2.x) + (p1.y - p2.y) * (p3.y - p2.y) := by ring
  have hden : npNorm ⟨p3.x - p2.x, p3.y - p2.y⟩ * npNorm ⟨p1.x - p2.x, p1.y - p2.y⟩ =
      npNorm ⟨p1.x - p2.x, p1.y - p2.y⟩ * npNorm ⟨p3.x - p2.x, p3.y - p2.y⟩ :=
    mul_comm _ _
  simp only [NpFloat.val, NpFloat.isNum]
  refine ⟨trivial, ?_, ?_, by rw [hdot, hden]⟩
  · exact mul_nonneg (Real.arccos_nonneg _) (by positivity)
  · have harc := Real.arccos_le_pi (max (-1) (min 1
      (((p1.x - p2.x) * (p3.x - p2.x) + (p1.y - p2.y) * (p3.y - p2.y)) /
        (npNorm ⟨p1.x - p2.x, p1.y - p2.y⟩ * npNorm ⟨p3.x - p2.x, p3.y - p2.y⟩))))
    have hk : (0:ℝ) ≤ 180 / Real.pi := by positivity
    have hmul := mul_le_mul_of_nonneg_right harc hk
    have hpi : Real.pi * (180 / Real.pi) = 180 := by field_simp
    linarith

theorem c7_angle_range_symm_witness :
    (calculate_angle ⟨1, 0⟩ ⟨0, 0⟩ ⟨0, 1⟩).isNum ∧
    0 ≤ (calculate_angle ⟨1, 0⟩ ⟨0, 0⟩ ⟨0, 1⟩).val ∧
    (calculate_angle ⟨1, 0⟩ ⟨0, 0⟩ ⟨0, 1⟩).val ≤ 180 ∧
    calculate_angle ⟨1, 0⟩ ⟨0, 0⟩ ⟨0, 1⟩ = calculate_angle ⟨0, 1⟩ ⟨0, 0⟩ ⟨1, 0⟩ :=
  c7_angle_range_symm ⟨1, 0⟩ ⟨0, 0⟩ ⟨0, 1⟩ (by norm_num) (by norm_num)

/-- C2: the no-landmarks path returns a result with no subject detected,
confidence 0.0, no exercise type and a good-posture verdict. -/
theorem c2_no_landmarks_result :
    subject_detected (analyze_frame none) = false ∧
    (analyze_frame none).confidence = 0.0 ∧
    (analyze_frame none).exercise_type = none ∧
    (analyze_frame none).is_bad_posture = false :=
  ⟨rfl, rfl, rfl, rfl⟩

lemma getLm_some (lm : Landmarks) (i : PoseLandmark) (l : Landmark)
    (h : lm i = some l) : getLm lm i = .ok l := by
  unfold getLm
  rw [h]

lemma getLm_none (lm : Landmarks) (i : PoseLandmark)
    (h : lm i = none) : getLm lm i = .error "landmark missing" := by
  unfold getLm
  rw [h]

/-- Opposite rays from the vertex give exactly 180 degrees. -/
lemma calculate_angle_straight (p1 p2 p3 : Pt)
    (hx : p1.x - p2.x = -(p3.x - p2.x)) (hy : p1.y - p2.y = -(p3.y - p2.y))
    (hnz : ¬ (p3.x - p2.x = 0 ∧ p3.y - p2.y = 0)) :
    calculate_angle p1 p2 p3 = .num 180 := by
  have h1 : ¬ (p1.x - p2.x = 0 ∧ p1.y - p2.y = 0) := by
    rw [hx, hy, neg_eq_zero, neg_eq_zero]
    exact hnz
  rw [calculate_angle_nondegen p1 p2 p3 h1 hnz, hx, hy]
  have hd : 0 < (p3.x - p2.x) ^ 2 + (p3.y - p2.y) ^ 2 := by
    rcases not_and_or.mp hnz with h | h
    · have hx2 : 0 < (p3.x - p2.x) ^ 2 := by positivity
      nlinarith [sq_nonneg (p3.y - p2.y)]
    · have hy2 : 0 < (p3.y - p2.y) ^ 2 := by positivity
      nlinarith [sq_nonneg (p3.x - p2.x)]
  have hnorm : npNorm ⟨-(p3.x - p2.x), -(p3.y - p2.y)⟩ =
      npNorm ⟨p3.x - p2.x, p3.y - p2.y⟩ := by
    simp only [npNorm]
    congr 1
    ring
  rw [hnorm]
  have hss : npNorm ⟨p3.x - p2.x, p3.y - p2.y⟩ * npNorm ⟨p3.x - p2.x, p3.y - p2.y⟩ =
      (p3.x - p2.x) ^ 2 + (p3.y - p2.y) ^ 2 := by
    simp only [npNorm]
    exact Real.mul_self_sqrt (by positivity)
  rw [hss]
  have hratio : (-(p3.x - p2.x) * (p3.x - p2.x) + -(p3.y - p2.y) * (p3.y - p2.y)) /
      ((p3.x - p2.x) ^ 2 + (p3.y - p2.y) ^ 2) = -1 := by
    rw [div_eq_iff (ne_of_gt hd)]
    ring
  rw [hratio]
  have hclamp : max (-1 : ℝ) (min 1 (-1)) = -1 := by norm_num
  rw [hclamp, Real.arccos_neg_one]
  have hpi : Real.pi * (180 / Real.pi) = 180 := by field_simp
  rw [hpi]

/-- Perpendicular nonzero vectors give exactly 90 degrees. -/
lemma calculate_angle_perp (p1 p2 p3 : Pt)
    (hdot : (p1.x - p2.x) * (p3.x - p2.x) + (p1.y - p2.y) * (p3.y - p2.y) = 0)
    (h1 : ¬ (p1.x - p2.x = 0 ∧ p1.y - p2.y = 0))
    (h2 : ¬ (p3.x - p2.x = 0 ∧ p3.y - p2.y = 0)) :
    calculate_angle p1 p2 p3 = .num 90 := by
  rw [calculate_angle_nondegen p1 p2 p3 h1 h2, hdot, zero_div]
  have hclamp : max (-1 : ℝ) (min 1 0) = 0 := by norm_num
  rw [hclamp, Real.arccos_zero]
  have hpi : Real.pi / 2 * (180 / Real.pi) = 90 := by
    field_simp
    ring
  rw [hpi]

/-- Unfolds `deskCore` once the neck angle is known. -/
lemma deskCore_eval (ls rs le re lh rh : Pt) (na : NpFloat)
    (hneck : calculate_angle (deskAvg le re) (deskAvg ls rs) (deskAvg lh rh) = na) :
    deskCore ls rs le re lh rh =
      ((if npLt na 150 then ["Forward head posture detected"] else []) ++
       (if |(deskAvg ls rs).x - (deskAvg lh rh).x| > 0.1 then ["Slouching detected"] else []) ++
       (if |ls.y - rs.y| > 0.05 then ["Uneven shoulders"] else []),
       { neck_angle := na
         back_angle := npSubL 180 na
         shoulder_alignment := decide (|(deskAvg ls rs).x - (deskAvg lh rh).x| < 0.1) }) := by
  subst hneck
  rfl

lemma lmC3_neck : calculate_angle (deskAvg ⟨1/5, 1⟩ ⟨1/5, 1⟩)
    (deskAvg ⟨1/10, 1⟩ ⟨1/10, 1⟩) (deskAvg ⟨0, 1⟩ ⟨0, 1⟩) = .num 180 := by
  apply calculate_angle_straight
  · simp only [deskAvg]
    norm_num
  · simp only [deskAvg]
    norm_num
  · simp only [deskAvg]
    norm_num

/-- C3, counterexample: at a shoulder-hip horizontal difference of exactly
0.1 the claim predicts `shoulder_alignment = true` (`diff <= 0.1`), but
the code computes `diff < 0.1` (src/backend/app.py:144) and stores
`false`. -/
theorem c3_alignment_boundary_cex :
    |((1:ℝ)/10 + 1/10) / 2 - ((0:ℝ) + 0) / 2| ≤ 0.1 ∧
    analyze_desk_posture lmC3 =
      .ok ([], { neck_angle := .num 180, back_angle := .num 0,
                 shoulder_alignment := false }) := by
  constructor
  · rw [show ((1:ℝ)/10 + 1/10) / 2 - ((0:ℝ) + 0) / 2 = 1/10 by norm_num,
      abs_of_nonneg (by norm_num : (0:ℝ) ≤ 1/10)]
    norm_num
  · have hred : analyze_desk_posture lmC3 =
        .ok (deskCore ⟨1/10, 1⟩ ⟨1/10, 1⟩ ⟨1/5, 1⟩ ⟨1/5, 1⟩ ⟨0, 1⟩ ⟨0, 1⟩) := rfl
    rw [hred, deskCore_eval _ _ _ _ _ _ _ lmC3_neck]
    have hdiff : |(deskAvg (⟨1/10, 1⟩ : Pt) ⟨1/10, 1⟩).x -
        (deskAvg (⟨0, 1⟩ : Pt) ⟨0, 1⟩).x| = 1/10 := by
      simp only [deskAvg]
      rw [show ((1:ℝ)/10 + 1/10) / 2 - ((0:ℝ) + 0) / 2 = 1/10 by norm_num,
        abs_of_nonneg (by norm_num : (0:ℝ) ≤ 1/10)]
    rw [hdiff]
    rw [if_neg (by norm_num [npLt] : ¬ npLt (NpFloat.num 180) 150)]
    rw [if_neg (by norm_num : ¬ ((1:ℝ)/10 > 0.1))]
    rw [if_neg (by norm_num : ¬ (|(1:ℝ) - 1| > 0.05))]
    rw [show npSubL 180 (.num 180) = NpFloat.num 0 by
      simp [npSubL]]
    rw [show decide ((1:ℝ)/10 < 0.1) = false from decide_eq_false (by norm_num)]
    rfl

/-- C3, amended: for every landmark set accepted by the desk rule set the
measurements record satisfies `shoulder_alignment =
(shoulder_hip_horizontal_diff < 0.1)` — strict comparison, so at exactly
0.1 the measurement is false. -/
theorem c3_alignment_strict (landmarks : Landmarks) (ls rs le re lh rh : Landmark)
    (hls : landmarks .left_shoulder = some ls)
    (hrs : landmarks .right_shoulder = some rs)
    (hle : landmarks .left_ear = some le)
    (hre : landmarks .right_ear = some re)
    (hlh : landmarks .left_hip = some lh)
    (hrh : landmarks .right_hip = some rh) :
    analyze_desk_posture landmarks =
      .ok (deskCore ls.pt rs.pt le.pt re.pt lh.pt rh.pt) ∧
    (deskCore ls.pt rs.pt le.pt re.pt lh.pt rh.pt).2.shoulder_alignment =
      decide (|(ls.x + rs.x) / 2 - (lh.x + rh.x) / 2| < 0.1) := by
  constructor
  · unfold analyze_desk_posture
    rw [getLm_some landmarks .left_shoulder ls hls, exBindOk,
        getLm_some landmarks .right_shoulder rs hrs, exBindOk,
        getLm_some landmarks .left_ear le hle, exBindOk,
        getLm_some landmarks .right_ear re hre, exBindOk,
        getLm_some landmarks .left_hip lh hlh, exBindOk,
        getLm_some landmarks .right_hip rh hrh, exBindOk]
    rfl
  · rfl

theorem c3_alignment_strict_witness :
    analyze_desk_posture lmC3 =
      .ok (deskCore (Landmark.pt ⟨1/10, 1, 0, 1⟩) (Landmark.pt ⟨1/10, 1, 0, 1⟩)
        (Landmark.pt ⟨1/5, 1, 0, 1⟩) (Landmark.pt ⟨1/5, 1, 0, 1⟩)
        (Landmark.pt ⟨0, 1, 0, 1⟩) (Landmark.pt ⟨0, 1, 0, 1⟩)) ∧
    (deskCore (Landmark.pt ⟨1/10, 1, 0, 1⟩) (Landmark.pt ⟨1/10, 1, 0, 1⟩)
        (Landmark.pt ⟨1/5, 1, 0, 1⟩) (Landmark.pt ⟨1/5, 1, 0, 1⟩)
        (Landmark.pt ⟨0, 1, 0, 1⟩) (Landmark.pt ⟨0, 1, 0, 1⟩)).2.shoulder_alignment =
      decide (|((1:ℝ)/10 + 1/10) / 2 - ((0:ℝ) + 0) / 2| < 0.1) :=
  c3_alignment_strict lmC3 ⟨1/10, 1, 0, 1⟩ ⟨1/10, 1, 0, 1⟩ ⟨1/5, 1, 0, 1⟩
    ⟨1/5, 1, 0, 1⟩ ⟨0, 1, 0, 1⟩ ⟨0, 1, 0, 1⟩ rfl rfl rfl rfl rfl rfl

/-- C4: with the four looked-up landmarks present, the classifier's output
is a function of the knee-hip angle alone (left knee, left hip, right
hip), `squat` exactly when the angle is strictly below 120, and
`desk_sitting` whenever it is not (including exactly 120). -/
theorem c4_classifier_threshold (landmarks : Landmarks) (lk rk lh rh : Landmark)
    (hlk : landmarks .left_knee = some lk)
    (hrk : landmarks .right_knee = some rk)
    (hlh : landmarks .left_hip = some lh)
    (hrh : landmarks .right_hip = some rh) :
    detect_exercise_type landmarks =
      .ok (if npLt (calculate_angle lk.pt lh.pt rh.pt) 120 then "squat"
           else "desk_sitting") ∧
    (detect_exercise_type landmarks = .ok "squat" ↔
      npLt (calculate_angle lk.pt lh.pt rh.pt) 120) ∧
    (¬ npLt (calculate_angle lk.pt lh.pt rh.pt) 120 →
      detect_exercise_type landmarks = .ok "desk_sitting") := by
  have h0 : detect_exercise_type landmarks =
      .ok (if npLt (calculate_angle lk.pt lh.pt rh.pt) 120 then "squat"
           else "desk_sitting") := by
    unfold detect_exercise_type
    rw [getLm_some landmarks .left_knee lk hlk, exBindOk,
        getLm_some landmarks .right_knee rk hrk, exBindOk,
        getLm_some landmarks .left_hip lh hlh, exBindOk,
        getLm_some landmarks .right_hip rh hrh, exBindOk]
    rfl
  refine ⟨h0, ?_, ?_⟩
  · rw [h0]
    by_cases h : npLt (calculate_angle lk.pt lh.pt rh.pt) 120
    · rw [if_pos h]
      simp [h]
    · rw [if_neg h]
      constructor
      · intro hc
        exact absurd (Except.ok.inj hc) (by decide)
      · intro hc
        exact absurd hc h
  · intro h
    rw [h0, if_neg h]

lemma calc_angle_lmC4 :
    calculate_angle (⟨1, 0⟩ : Pt) ⟨0, 0⟩ ⟨-(1/2), Real.sqrt 3 / 2⟩ = .num 120 := by
  rw [calculate_angle_nondegen _ _ _ (by norm_num) (by norm_num)]
  have hn1 : npNorm ⟨(1:ℝ) - 0, (0:ℝ) - 0⟩ = 1 := by
    simp [npNorm]
  have hn2 : npNorm ⟨-(1/2) - 0, Real.sqrt 3 / 2 - (0:ℝ)⟩ = 1 := by
    simp only [npNorm, sub_zero]
    rw [show (-(1/2) : ℝ) ^ 2 + (Real.sqrt 3 / 2) ^ 2 = 1 by
      rw [div_pow, Real.sq_sqrt (by norm_num : (0:ℝ) ≤ 3)]
      norm_num]
    exact Real.sqrt_one
  rw [hn1, hn2]
  have hdot : ((1:ℝ) - 0) * (-(1/2) - 0) + ((0:ℝ) - 0) * (Real.sqrt 3 / 2 - 0) = -(1/2) := by
    ring
  rw [hdot]
  rw [show (-(1/2) : ℝ) / (1 * 1) = -(1/2) by norm_num]
  rw [show max (-1 : ℝ) (min 1 (-(1/2))) = -(1/2) by norm_num]
  have hcos : Real.cos (Real.pi - Real.pi / 3) = -(1/2) := by
    rw [Real.cos_pi_sub, Real.cos_pi_div_three]
  rw [← hcos, Real.arccos_cos (by linarith [Real.pi_pos]) (by linarith [Real.pi_pos])]
  rw [show (Real.pi - Real.pi / 3) * (180 / Real.pi) = 120 by
    field_simp
    ring]

theorem c4_classifier_threshold_witness :
    detect_exercise_type lmC4 = .ok "desk_sitting" := by
  have h := c4_classifier_threshold lmC4 ⟨1, 0, 0, 1⟩ ⟨0, 0, 0, 1⟩ ⟨0, 0, 0, 1⟩
    ⟨-(1/2), Real.sqrt 3 / 2, 0, 1⟩ rfl rfl rfl rfl
  apply h.2.2
  have h120 : calculate_angle (Landmark.pt ⟨1, 0, 0, 1⟩) (Landmark.pt ⟨0, 0, 0, 1⟩)
      (Landmark.pt ⟨-(1/2), Real.sqrt 3 / 2, 0, 1⟩) = .num 120 := calc_angle_lmC4
  rw [h120]
  norm_num [npLt]

lemma analyze_frame_ok (landmarks : Landmarks) (r : String × List String × Details)
    (h : analyze_core landmarks = .ok r) :
    analyze_frame (some landmarks) = compose r.1 r.2.1 r.2.2 := by
  unfold analyze_frame
  dsimp only
  rw [h]

lemma analyze_frame_err (landmarks : Landmarks) (e : String)
    (h : analyze_core landmarks = .error e) :
    analyze_frame (some landmarks) =
      { is_bad_posture := false
        message := "Analysis error: " ++ e
        confidence := 0.0
        details := .empty
        exercise_type := none
        issues := none } := by
  unfold analyze_frame
  dsimp only
  rw [h]

/-- The classifier emits only the two labels. -/
lemma detect_vals (lm : Landmarks) (s : String) (h : detect_exercise_type lm = .ok s) :
    s = "squat" ∨ s = "desk_sitting" := by
  unfold detect_exercise_type at h
  cases h1 : getLm lm .left_knee with
  | error e =>
    simp only [h1, exBindErr] at h
    exact Except.noConfusion h
  | ok lk =>
    simp only [h1, exBindOk] at h
    cases h2 : getLm lm .right_knee with
    | error e =>
      simp only [h2, exBindErr] at h
      exact Except.noConfusion h
    | ok rk =>
      simp only [h2, exBindOk] at h
      cases h3 : getLm lm .left_hip with
      | error e =>
        simp only [h3, exBindErr] at h
        exact Except.noConfusion h
      | ok lh =>
        simp only [h3, exBindOk] at h
        cases h4 : getLm lm .right_hip with
        | error e =>
          simp only [h4, exBindErr] at h
          exact Except.noConfusion h
        | ok rh =>
          simp only [h4, exBindOk, exPure] at h
          by_cases hc : npLt (calculate_angle lk.pt lh.pt rh.pt) 120
          · rw [if_pos hc] at h
            exact .inl (Except.ok.inj h).symm
          · rw [if_neg hc] at h
            exact .inr (Except.ok.inj h).symm

/-- A successful desk analysis is `deskCore` on the looked-up points. -/
lemma analyze_desk_inv (lm : Landmarks) (r : List String × DeskDetails)
    (h : analyze_desk_posture lm = .ok r) :
    ∃ ls rs le re lh rh : Landmark,
      r = deskCore ls.pt rs.pt le.pt re.pt lh.pt rh.pt := by
  unfold analyze_desk_posture at h
  cases h1 : getLm lm .left_shoulder with
  | error e =>
    simp only [h1, exBindErr] at h
    exact Except.noConfusion h
  | ok ls =>
    simp only [h1, exBindOk] at h
    cases h2 : getLm lm .right_shoulder with
    | error e =>
      simp only [h2, exBindErr] at h
      exact Except.noConfusion h
    | ok rs =>
      simp only [h2, exBindOk] at h
      cases h3 : getLm lm .left_ear with
      | error e =>
        simp only [h3, exBindErr] at h
        exact Except.noConfusion h
      | ok le =>
        simp only [h3, exBindOk] at h
        cases h4 : getLm lm .right_ear with
        | error e =>
          simp only [h4, exBindErr] at h
          exact Except.noConfusion h
        | ok re =>
          simp only [h4, exBindOk] at h
          cases h5 : getLm lm .left_hip with
          | error e =>
            simp only [h5, exBindErr] at h
            exact Except.noConfusion h
          | ok lh =>
            simp only [h5, exBindOk] at h
            cases h6 : getLm lm .right_hip with
            | error e =>
              simp only [h6, exBindErr] at h
              exact Except.noConfusion h
            | ok rh =>
              simp only [h6, exBindOk, exPure] at h
              exact ⟨ls, rs, le, re, lh, rh, (Except.ok.inj h).symm⟩

/-- A successful squat analysis is `squatCore` on the looked-up points. -/
lemma analyze_squat_inv (lm : Landmarks) (r : List String × SquatDetails)
    (h : analyze_squat_posture lm = .ok r) :
    ∃ lk rk la ra lh rh ls rs : Landmark,
      r = squatCore lk.pt rk.pt la.pt ra.pt lh.pt rh.pt ls.pt rs.pt := by
  unfold analyze_squat_posture at h
  cases h1 : getLm lm .left_knee with
  | error e =>
    simp only [h1, exBindErr] at h
    exact Except.noConfusion h
  | ok lk =>
    simp only [h1, exBindOk] at h
    cases h2 : getLm lm .right_knee with
    | error e =>
      simp only [h2, exBindErr] at h
      exact Except.noConfusion h
    | ok rk =>
      simp only [h2, exBindOk] at h
      cases h3 : getLm lm .left_ankle with
      | error e =>
        simp only [h3, exBindErr] at h
        exact Except.noConfusion h
      | ok la =>
        simp only [h3, exBindOk] at h
        cases h4 : getLm lm .right_ankle with
        | error e =>
          simp only [h4, exBindErr] at h
          exact Except.noConfusion h
        | ok ra =>
          simp only [h4, exBindOk] at h
          cases h5 : getLm lm .left_hip with
          | error e =>
            simp only [h5, exBindErr] at h
            exact Except.noConfusion h
          | ok lh =>
            simp only [h5, exBindOk] at h
            cases h6 : getLm lm .right_hip with
            | error e =>
              simp only [h6, exBindErr] at h
              exact Except.noConfusion h
            | ok rh =>
              simp only [h6, exBindOk] at h
              cases h7 : getLm lm .left_shoulder with
              | error e =>
                simp only [h7, exBindErr] at h
                exact Except.noConfusion h
              | ok ls =>
                simp only [h7, exBindOk] at h
                cases h8 : getLm lm .right_shoulder with
                | error e =>
                  simp only [h8, exBindErr] at h
                  exact Except.noConfusion h
                | ok rs =>
                  simp only [h8, exBindOk, exPure] at h
                  exact ⟨lk, rk, la, ra, lh, rh, ls, rs, (Except.ok.inj h).symm⟩

/-- Inversion of the classification-and-rules pipeline. -/
lemma analyze_core_inv (lm : Landmarks) (et : String) (issues : List String)
    (details : Details) (h : analyze_core lm = .ok (et, issues, details)) :
    (et = "squat" ∧ ∃ d, analyze_squat_posture lm = .ok (issues, d) ∧ details = .squat d) ∨
    (et = "desk_sitting" ∧ ∃ d, analyze_desk_posture lm = .ok (issues, d) ∧ details = .desk d) := by
  unfold analyze_core at h
  cases hdet : detect_exercise_type lm with
  | error e =>
    simp only [hdet, exBindErr] at h
    exact Except.noConfusion h
  | ok s =>
    simp only [hdet, exBindOk] at h
    by_cases hs : s = "squat"
    · subst hs
      rw [if_pos rfl] at h
      cases hsq : analyze_squat_posture lm with
      | error e =>
        simp only [hsq, exBindErr] at h
        exact Except.noConfusion h
      | ok r =>
        simp only [hsq, exBindOk, exPure, Except.ok.injEq, Prod.mk.injEq] at h
        obtain ⟨he, hi, hd⟩ := h
        refine .inl ⟨he.symm, r.2, ?_, hd.symm⟩
        rw [← hi]
    · rw [if_neg hs] at h
      cases hde : analyze_desk_posture lm with
      | error e =>
        simp only [hde, exBindErr] at h
        exact Except.noConfusion h
      | ok r =>
        simp only [hde, exBindOk, exPure, Except.ok.injEq, Prod.mk.injEq] at h
        obtain ⟨he, hi, hd⟩ := h
        rcases detect_vals lm s hdet with h' | h'
        · exact absurd h' hs
        · refine .inr ⟨he ▸ h', r.2, ?_, hd.symm⟩
          rw [← hi]

/-- C6: whenever the classification-or-rules computation raises,
`analyze_frame` catches it and returns the degraded result: confidence
0.0 and a descriptive message, never a propagated exception. -/
theorem c6_error_degraded (landmarks : Landmarks) (e : String)
    (h : analyze_core landmarks = .error e) :
    analyze_frame (some landmarks) =
      { is_bad_posture := false
        message := "Analysis error: " ++ e
        confidence := 0.0
        details := .empty
        exercise_type := none
        issues := none } :=
  analyze_frame_err landmarks e h

theorem c6_error_degraded_witness :
    analyze_frame (some lmC6) =
      { is_bad_posture := false
        message := "Analysis error: " ++ "landmark missing"
        confidence := 0.0
        details := .empty
        exercise_type := none
        issues := none } :=
  c6_error_degraded lmC6 "landmark missing" rfl

lemma detect_of_angle (lm : Landmarks) (lk rk lh rh : Landmark)
    (hlk : lm .left_knee = some lk) (hrk : lm .right_knee = some rk)
    (hlh : lm .left_hip = some lh) (hrh : lm .right_hip = some rh) :
    detect_exercise_type lm =
      .ok (if npLt (calculate_angle lk.pt lh.pt rh.pt) 120 then "squat"
           else "desk_sitting") := by
  unfold detect_exercise_type
  rw [getLm_some lm .left_knee lk hlk, exBindOk,
      getLm_some lm .right_knee rk hrk, exBindOk,
      getLm_some lm .left_hip lh hlh, exBindOk,
      getLm_some lm .right_hip rh hrh, exBindOk]
  rfl

lemma analyze_desk_lookups (lm : Landmarks) (ls rs le re lh rh : Landmark)
    (hls : lm .left_shoulder = some ls) (hrs : lm .right_shoulder = some rs)
    (hle : lm .left_ear = some le) (hre : lm .right_ear = some re)
    (hlh : lm .left_hip = some lh) (hrh : lm .right_hip = some rh) :
    analyze_desk_posture lm = .ok (deskCore ls.pt rs.pt le.pt re.pt lh.pt rh.pt) := by
  unfold analyze_desk_posture
  rw [getLm_some lm .left_shoulder ls hls, exBindOk,
      getLm_some lm .right_shoulder rs hrs, exBindOk,
      getLm_some lm .left_ear le hle, exBindOk,
      getLm_some lm .right_ear re hre, exBindOk,
      getLm_some lm .left_hip lh hlh, exBindOk,
      getLm_some lm .right_hip rh hrh, exBindOk]
  rfl

lemma analyze_squat_lookups (lm : Landmarks) (lk rk la ra lh rh ls rs : Landmark)
    (hlk : lm .left_knee = some lk) (hrk : lm .right_knee = some rk)
    (hla : lm .left_ankle = some la) (hra : lm .right_ankle = some ra)
    (hlh : lm .left_hip = some lh) (hrh : lm .right_hip = some rh)
    (hls : lm .left_shoulder = some ls) (hrs : lm .right_shoulder = some rs) :
    analyze_squat_posture lm =
      .ok (squatCore lk.pt rk.pt la.pt ra.pt lh.pt rh.pt ls.pt rs.pt) := by
  unfold analyze_squat_posture
  rw [getLm_some lm .left_knee lk hlk, exBindOk,
      getLm_some lm .right_knee rk hrk, exBindOk,
      getLm_some lm .left_ankle la hla, exBindOk,
      getLm_some lm .right_ankle ra hra, exBindOk,
      getLm_some lm .left_hip lh hlh, exBindOk,
      getLm_some lm .right_hip rh hrh, exBindOk,
      getLm_some lm .left_shoulder ls hls, exBindOk,
      getLm_some lm .right_shoulder rs hrs, exBindOk]
  rfl

/-- Unfolds `squatCore` once the back angle is known. -/
lemma squatCore_eval (lk rk la ra lh rh ls rs : Pt) (ba : NpFloat)
    (hback : calculate_angle ls lh lk = ba) :
    squatCore lk rk la ra lh rh ls rs =
      ((if lk.x > la.x ∨ rk.x > ra.x then ["Knees extending beyond toes"] else []) ++
       (if npLt ba 150 then ["Rounded back detected"] else []) ++
       (if ¬ (|lk.x - la.x| < 0.1 ∧ |rk.x - ra.x| < 0.1) then ["Poor knee tracking"]
        else []),
       { knee_toe_alignment := decide (¬ (lk.x > la.x ∨ rk.x > ra.x))
         back_angle := ba
         knee_tracking := decide (|lk.x - la.x| < 0.1 ∧ |rk.x - ra.x| < 0.1) }) := by
  subst hback
  rfl

/-- A desk pose with neck angle 180, aligned shoulders and level
shoulders produces no issues. -/
lemma deskCore_good (ls rs le re lh rh : Pt)
    (hneck : calculate_angle (deskAvg le re) (deskAvg ls rs) (deskAvg lh rh) = .num 180)
    (hdiff : |(deskAvg ls rs).x - (deskAvg lh rh).x| = 0)
    (hlevel : |ls.y - rs.y| = 0) :
    deskCore ls rs le re lh rh =
      ([], { neck_angle := .num 180, back_angle := .num 0,
             shoulder_alignment := true }) := by
  rw [deskCore_eval _ _ _ _ _ _ _ hneck, hdiff, hlevel]
  rw [if_neg (by norm_num [npLt] : ¬ npLt (NpFloat.num 180) 150)]
  rw [if_neg (by norm_num : ¬ ((0:ℝ) > 0.1))]
  rw [if_neg (by norm_num : ¬ ((0:ℝ) > 0.05))]
  rw [show npSubL 180 (NpFloat.num 180) = NpFloat.num 0 by
    simp [npSubL]]
  rw [show decide ((0:ℝ) < 0.1) = true from decide_eq_true (by norm_num)]
  rfl

lemma lmC5_core :
    analyze_core lmC5 = .ok ("desk_sitting", [],
      .desk { neck_angle := .num 180, back_angle := .num 0,
              shoulder_alignment := true }) := by
  have hdet : detect_exercise_type lmC5 = .ok "desk_sitting" := by
    rw [detect_of_angle lmC5 ⟨-1, 2, 0, 1⟩ ⟨2, 2, 0, 1⟩ ⟨0, 2, 0, 1⟩ ⟨1, 2, 0, 1⟩
      rfl rfl rfl rfl]
    rw [calculate_angle_straight (Landmark.pt ⟨-1, 2, 0, 1⟩) (Landmark.pt ⟨0, 2, 0, 1⟩)
      (Landmark.pt ⟨1, 2, 0, 1⟩) (by norm_num [Landmark.pt]) (by norm_num [Landmark.pt])
      (by norm_num [Landmark.pt])]
    rw [if_neg (by norm_num [npLt] : ¬ npLt (NpFloat.num 180) 120)]
  have hdesk : analyze_desk_posture lmC5 =
      .ok ([], { neck_angle := .num 180, back_angle := .num 0,
                 shoulder_alignment := true }) := by
    rw [analyze_desk_lookups lmC5 ⟨1/2, 1, 0, 1⟩ ⟨1/2, 1, 0, 1⟩ ⟨1/2, 0, 0, 1⟩
      ⟨1/2, 0, 0, 1⟩ ⟨0, 2, 0, 1⟩ ⟨1, 2, 0, 1⟩ rfl rfl rfl rfl rfl rfl]
    rw [deskCore_good _ _ _ _ _ _
      (calculate_angle_straight _ _ _ (by norm_num [deskAvg, Landmark.pt])
        (by norm_num [deskAvg, Landmark.pt]) (by norm_num [deskAvg, Landmark.pt]))
      (by norm_num [deskAvg, Landmark.pt]) (by norm_num [Landmark.pt])]
  unfold analyze_core
  simp only [hdet, exBindOk]
  rw [if_neg (by decide : ¬ ("desk_sitting" = "squat"))]
  simp only [hdesk, exBindOk, exPure]

/-- C5: with a subject and no computation failure, the verdict is
`issues nonempty` and the confidence is `max 0.5 (1 - 0.2 n)`; the
confidence is 0 exactly on the no-subject and failure paths. -/
theorem c5_confidence_invariants (input : Option Landmarks) :
    ((analyze_frame input).confidence = 0 ↔
      input = none ∨ ∃ lm e, input = some lm ∧ analyze_core lm = .error e) ∧
    (∀ lm et issues details, input = some lm →
      analyze_core lm = .ok (et, issues, details) →
      (analyze_frame input).is_bad_posture = decide (issues.length > 0) ∧
      (analyze_frame input).confidence =
        max 0.5 (1.0 - (issues.length : ℝ) * 0.2)) := by
  cases input with
  | none =>
    constructor
    · constructor
      · intro _
        exact .inl rfl
      · intro _
        show (0.0 : ℝ) = 0
        norm_num
    · intro lm et issues details heq
      exact absurd heq (by simp)
  | some lm =>
    cases hcore : analyze_core lm with
    | ok r =>
      have hframe := analyze_frame_ok lm r hcore
      constructor
      · rw [hframe]
        constructor
        · intro hc
          exfalso
          have hconf : (compose r.1 r.2.1 r.2.2).confidence =
              max 0.5 (1.0 - (r.2.1.length : ℝ) * 0.2) := rfl
          rw [hconf] at hc
          have h5 : (0.5 : ℝ) ≤ max 0.5 (1.0 - (r.2.1.length : ℝ) * 0.2) :=
            le_max_left _ _
          rw [hc] at h5
          norm_num at h5
        · rintro (hn | ⟨lm', e, heq, herr⟩)
          · exact Option.noConfusion hn
          · rw [← Option.some.inj heq] at herr
            rw [hcore] at herr
            exact Except.noConfusion herr
      · intro lm' et issues details heq hok
        have hl : lm = lm' := Option.some.inj heq
        subst hl
        rw [hcore] at hok
        have hr : r = (et, issues, details) := Except.ok.inj hok
        subst hr
        constructor
        · rw [hframe]
          rfl
        · rw [hframe]
          rfl
    | error e =>
      have hframe := analyze_frame_err lm e hcore
      constructor
      · rw [hframe]
        constructor
        · intro _
          exact .inr ⟨lm, e, rfl, hcore⟩
        · intro _
          show (0.0 : ℝ) = 0
          norm_num
      · intro lm' et issues details heq hok
        have hl : lm = lm' := Option.some.inj heq
        subst hl
        rw [hcore] at hok
        exact Except.noConfusion hok

theorem c5_confidence_invariants_witness :
    (analyze_frame (some lmC5)).is_bad_posture = false ∧
    (analyze_frame (some lmC5)).confidence = 1 := by
  have h := (c5_confidence_invariants (some lmC5)).2 lmC5 "desk_sitting" []
    (.desk { neck_angle := .num 180, back_angle := .num 0, shoulder_alignment := true })
    rfl lmC5_core
  constructor
  · rw [h.1]
    rfl
  · rw [h.2]
    rw [show (1.0 : ℝ) - (List.length ([] : List String) : ℝ) * 0.2 = 1 by norm_num]
    rw [max_eq_right (by norm_num : (0.5:ℝ) ≤ 1)]

lemma opt_cat_sublist (c1 c2 c3 : Prop) [Decidable c1] [Decidable c2] [Decidable c3]
    (s1 s2 s3 : String) :
    ((if c1 then [s1] else []) ++ (if c2 then [s2] else []) ++
      (if c3 then [s3] else [])).Sublist [s1, s2, s3] := by
  have t1 : (if c1 then [s1] else []).Sublist [s1] := by
    split_ifs
    · exact List.Sublist.refl _
    · exact List.nil_sublist _
  have t2 : (if c2 then [s2] else []).Sublist [s2] := by
    split_ifs
    · exact List.Sublist.refl _
    · exact List.nil_sublist _
  have t3 : (if c3 then [s3] else []).Sublist [s3] := by
    split_ifs
    · exact List.Sublist.refl _
    · exact List.nil_sublist _
  have hall := List.Sublist.append (List.Sublist.append t1 t2) t3
  simpa using hall

lemma opt_cat_len (c1 c2 c3 : Prop) [Decidable c1] [Decidable c2] [Decidable c3]
    (s1 s2 s3 : String) :
    ((if c1 then [s1] else []) ++ (if c2 then [s2] else []) ++
      (if c3 then [s3] else [])).length ≤ 3 := by
  split_ifs <;> simp

lemma deskCore_sublist (ls rs le re lh rh : Pt) :
    (deskCore ls rs le re lh rh).1.Sublist
      ["Forward head posture detected", "Slouching detected", "Uneven shoulders"] := by
  rw [deskCore_eval ls rs le re lh rh _ rfl]
  exact opt_cat_sublist _ _ _ _ _ _

lemma deskCore_len (ls rs le re lh rh : Pt) :
    (deskCore ls rs le re lh rh).1.length ≤ 3 := by
  rw [deskCore_eval ls rs le re lh rh _ rfl]
  exact opt_cat_len _ _ _ _ _ _

lemma squatCore_sublist (lk rk la ra lh rh ls rs : Pt) :
    (squatCore lk rk la ra lh rh ls rs).1.Sublist
      ["Knees extending beyond toes", "Rounded back detected", "Poor knee tracking"] := by
  rw [squatCore_eval lk rk la ra lh rh ls rs _ rfl]
  exact opt_cat_sublist _ _ _ _ _ _

lemma squatCore_len (lk rk la ra lh rh ls rs : Pt) :
    (squatCore lk rk la ra lh rh ls rs).1.length ≤ 3 := by
  rw [squatCore_eval lk rk la ra lh rh ls rs _ rfl]
  exact opt_cat_len _ _ _ _ _ _

/-- A squat pose with knees above ankles and back angle 180 produces no
issues. -/
lemma squatCore_good (lk rk la ra lh rh ls rs : Pt)
    (hback : calculate_angle ls lh lk = .num 180)
    (hlt : ¬ lk.x > la.x) (hrt : ¬ rk.x > ra.x)
    (htl : |lk.x - la.x| < 0.1) (htr : |rk.x - ra.x| < 0.1) :
    squatCore lk rk la ra lh rh ls rs =
      ([], { knee_toe_alignment := true, back_angle := .num 180,
             knee_tracking := true }) := by
  rw [squatCore_eval _ _ _ _ _ _ _ _ _ hback]
  rw [if_neg (not_or.mpr ⟨hlt, hrt⟩)]
  rw [if_neg (by norm_num [npLt] : ¬ npLt (NpFloat.num 180) 150)]
  rw [if_neg (not_not_intro ⟨htl, htr⟩)]
  rw [show decide (¬ (lk.x > la.x ∨ rk.x > ra.x)) = true from
    decide_eq_true (not_or.mpr ⟨hlt, hrt⟩)]
  rw [show decide (|lk.x - la.x| < 0.1 ∧ |rk.x - ra.x| < 0.1) = true from
    decide_eq_true ⟨htl, htr⟩]
  rfl

lemma lmC8_core :
    analyze_core lmC8 = .ok ("squat", [],
      .squat { knee_toe_alignment := true, back_angle := .num 180,
               knee_tracking := true }) := by
  have hdet : detect_exercise_type lmC8 = .ok "squat" := by
    rw [detect_of_angle lmC8 ⟨0, 1, 0, 1⟩ ⟨0, 1, 0, 1⟩ ⟨0, 0, 0, 1⟩ ⟨1, 0, 0, 1⟩
      rfl rfl rfl rfl]
    rw [calculate_angle_perp (Landmark.pt ⟨0, 1, 0, 1⟩) (Landmark.pt ⟨0, 0, 0, 1⟩)
      (Landmark.pt ⟨1, 0, 0, 1⟩) (by norm_num [Landmark.pt]) (by norm_num [Landmark.pt])
      (by norm_num [Landmark.pt])]
    rw [if_pos (by norm_num [npLt] : npLt (NpFloat.num 90) 120)]
  have hsq : analyze_squat_posture lmC8 =
      .ok ([], { knee_toe_alignment := true, back_angle := .num 180,
                 knee_tracking := true }) := by
    rw [analyze_squat_lookups lmC8 ⟨0, 1, 0, 1⟩ ⟨0, 1, 0, 1⟩ ⟨0, 0, 0, 1⟩ ⟨0, 0, 0, 1⟩
      ⟨0, 0, 0, 1⟩ ⟨1, 0, 0, 1⟩ ⟨0, -1, 0, 1⟩ ⟨1, -1, 0, 1⟩
      rfl rfl rfl rfl rfl rfl rfl rfl]
    rw [squatCore_good _ _ _ _ _ _ _ _
      (calculate_angle_straight _ _ _ (by norm_num [Landmark.pt])
        (by norm_num [Landmark.pt]) (by norm_num [Landmark.pt]))
      (by norm_num [Landmark.pt]) (by norm_num [Landmark.pt])
      (by norm_num [Landmark.pt]) (by norm_num [Landmark.pt])]
  unfold analyze_core
  simp only [hdet, exBindOk]
  rw [if_pos trivial]
  simp only [hsq, exBindOk, exPure]

lemma lmC9_core :
    analyze_core lmC9 = .ok ("desk_sitting", [],
      .desk { neck_angle := .num 180, back_angle := .num 0,
              shoulder_alignment := true }) := by
  have hdet : detect_exercise_type lmC9 = .ok "desk_sitting" := by
    rw [detect_of_angle lmC9 ⟨9, 2, 0, 1⟩ ⟨12, 2, 0, 1⟩ ⟨10, 2, 0, 1⟩ ⟨11, 2, 0, 1⟩
      rfl rfl rfl rfl]
    rw [calculate_angle_straight (Landmark.pt ⟨9, 2, 0, 1⟩) (Landmark.pt ⟨10, 2, 0, 1⟩)
      (Landmark.pt ⟨11, 2, 0, 1⟩) (by norm_num [Landmark.pt]) (by norm_num [Landmark.pt])
      (by norm_num [Landmark.pt])]
    rw [if_neg (by norm_num [npLt] : ¬ npLt (NpFloat.num 180) 120)]
  have hdesk : analyze_desk_posture lmC9 =
      .ok ([], { neck_angle := .num 180, back_angle := .num 0,
                 shoulder_alignment := true }) := by
    rw [analyze_desk_lookups lmC9 ⟨21/2, 1, 0, 1⟩ ⟨21/2, 1, 0, 1⟩ ⟨21/2, 0, 0, 1⟩
      ⟨21/2, 0, 0, 1⟩ ⟨10, 2, 0, 1⟩ ⟨11, 2, 0, 1⟩ rfl rfl rfl rfl rfl rfl]
    rw [deskCore_good _ _ _ _ _ _
      (calculate_angle_straight _ _ _ (by norm_num [deskAvg, Landmark.pt])
        (by norm_num [deskAvg, Landmark.pt]) (by norm_num [deskAvg, Landmark.pt]))
      (by norm_num [deskAvg, Landmark.pt]) (by norm_num [Landmark.pt])]
  unfold analyze_core
  simp only [hdet, exBindOk]
  rw [if_neg (by decide : ¬ ("desk_sitting" = "squat"))]
  simp only [hdesk, exBindOk, exPure]

lemma conf_mem (n : ℕ) (h : n ≤ 3) :
    max 0.5 (1.0 - (n : ℝ) * 0.2) ∈ ({1.0, 0.8, 0.6, 0.5} : Set ℝ) := by
  simp only [Set.mem_insert_iff, Set.mem_singleton_iff]
  interval_cases n
  · left
    rw [max_eq_right (by norm_num)]
    norm_num
  · right
    left
    rw [max_eq_right (by norm_num)]
    norm_num
  · right
    right
    left
    rw [max_eq_right (by norm_num)]
    norm_num
  · right
    right
    right
    rw [max_eq_left (by norm_num)]

/-- C9: on every successful analysis of a detected subject, each rule set
emits at most three issues, so the confidence takes one of exactly four
values. -/
theorem c9_confidence_values (lm : Landmarks) (et : String) (issues : List String)
    (details : Details) (h : analyze_core lm = .ok (et, issues, details)) :
    issues.length ≤ 3 ∧
    (analyze_frame (some lm)).confidence ∈ ({1.0, 0.8, 0.6, 0.5} : Set ℝ) := by
  have hlen : issues.length ≤ 3 := by
    rcases analyze_core_inv lm et issues details h with ⟨_, d, hs, _⟩ | ⟨_, d, hd, _⟩
    · obtain ⟨lk, rk, la, ra, lh, rh, ls, rs, hr⟩ := analyze_squat_inv lm (issues, d) hs
      have hi : issues = (squatCore lk.pt rk.pt la.pt ra.pt lh.pt rh.pt ls.pt rs.pt).1 :=
        congrArg Prod.fst hr
      rw [hi]
      exact squatCore_len _ _ _ _ _ _ _ _
    · obtain ⟨ls, rs, le, re, lh, rh, hr⟩ := analyze_desk_inv lm (issues, d) hd
      have hi : issues = (deskCore ls.pt rs.pt le.pt re.pt lh.pt rh.pt).1 :=
        congrArg Prod.fst hr
      rw [hi]
      exact deskCore_len _ _ _ _ _ _
  refine ⟨hlen, ?_⟩
  rw [analyze_frame_ok lm (et, issues, details) h]
  have hconf : (compose (et, issues, details).1 (et, issues, details).2.1
      (et, issues, details).2.2).confidence =
      max 0.5 (1.0 - (issues.length : ℝ) * 0.2) := rfl
  rw [hconf]
  exact conf_mem issues.length hlen

theorem c9_confidence_values_witness :
    (([] : List String)).length ≤ 3 ∧
    (analyze_frame (some lmC9)).confidence ∈ ({1.0, 0.8, 0.6, 0.5} : Set ℝ) :=
  c9_confidence_values lmC9 "desk_sitting" []
    (.desk { neck_angle := .num 180, back_angle := .num 0, shoulder_alignment := true })
    lmC9_core

/-- C8: issue lists follow the fixed rule-evaluation order of the rule set
that produced them, and the composed message joins them after the fixed
prefix when bad, or congratulates the (underscore-free) exercise type when
good. -/
theorem c8_issue_order_message (lm : Landmarks) (et : String) (issues : List String)
    (details : Details) (h : analyze_core lm = .ok (et, issues, details)) :
    (et = "squat" → issues.Sublist
      ["Knees extending beyond toes", "Rounded back detected", "Poor knee tracking"]) ∧
    (et = "desk_sitting" → issues.Sublist
      ["Forward head posture detected", "Slouching detected", "Uneven shoulders"]) ∧
    (analyze_frame (some lm)).message =
      (if issues = [] then
        "Good " ++ pyReplace et (Char.ofNat 95) (Char.ofNat 32) ++ " posture!"
       else "Bad posture detected: " ++ String.intercalate ", " issues) := by
  have hinv := analyze_core_inv lm et issues details h
  refine ⟨?_, ?_, ?_⟩
  · intro hsq
    rcases hinv with ⟨_, d, hs, _⟩ | ⟨hdet, _⟩
    · obtain ⟨lk, rk, la, ra, lh, rh, ls, rs, hr⟩ := analyze_squat_inv lm (issues, d) hs
      have hi : issues = (squatCore lk.pt rk.pt la.pt ra.pt lh.pt rh.pt ls.pt rs.pt).1 :=
        congrArg Prod.fst hr
      rw [hi]
      exact squatCore_sublist _ _ _ _ _ _ _ _
    · exact absurd (hsq ▸ hdet) (by decide)
  · intro hde
    rcases hinv with ⟨hdet, _⟩ | ⟨_, d, hd, _⟩
    · exact absurd (hde ▸ hdet) (by decide)
    · obtain ⟨ls, rs, le, re, lh, rh, hr⟩ := analyze_desk_inv lm (issues, d) hd
      have hi : issues = (deskCore ls.pt rs.pt le.pt re.pt lh.pt rh.pt).1 :=
        congrArg Prod.fst hr
      rw [hi]
      exact deskCore_sublist _ _ _ _ _ _
  · rw [analyze_frame_ok lm (et, issues, details) h]
    show (if issues.length > 0 then "Bad posture detected: " ++ String.intercalate ", " issues
      else "Good " ++ pyReplace et (Char.ofNat 95) (Char.ofNat 32) ++ " posture!") = _
    by_cases hi : issues = []
    · subst hi
      rw [if_neg (by norm_num), if_pos rfl]
    · rw [if_pos (List.length_pos.mpr hi), if_neg hi]

theorem c8_issue_order_message_witness :
    (([] : List String).Sublist
      ["Knees extending beyond toes", "Rounded back detected", "Poor knee tracking"]) ∧
    (analyze_frame (some lmC8)).message = "Good squat posture!" := by
  have h := c8_issue_order_message lmC8 "squat" []
    (.squat { knee_toe_alignment := true, back_angle := .num 180, knee_tracking := true })
    lmC8_core
  refine ⟨h.1 rfl, ?_⟩
  rw [h.2.2, if_pos rfl]
  rfl

lemma coordEq_getLm (lm lm' : Landmarks) (h : ∀ i, coordEq (lm i) (lm' i))
    (i : PoseLandmark) :
    (getLm lm i = .error "landmark missing" ∧
      getLm lm' i = .error "landmark missing") ∨
    (∃ a b, getLm lm i = .ok a ∧ getLm lm' i = .ok b ∧ a.pt = b.pt) := by
  have hi := h i
  cases ha : lm i with
  | none =>
    cases hb : lm' i with
    | none => exact .inl ⟨getLm_none lm i ha, getLm_none lm' i hb⟩
    | some b =>
      rw [ha, hb] at hi
      exact absurd hi id
  | some a =>
    cases hb : lm' i with
    | none =>
      rw [ha, hb] at hi
      exact absurd hi id
    | some b =>
      rw [ha, hb] at hi
      refine .inr ⟨a, b, getLm_some lm i a ha, getLm_some lm' i b hb, ?_⟩
      show (⟨a.x, a.y⟩ : Pt) = ⟨b.x, b.y⟩
      rw [hi.1, hi.2]

/-- C10: the classifier and both rule sets are pure functions of the
landmark coordinates alone: landmark sets with equal `x`/`y` (and equal
presence) give identical outputs, whatever their `z` and visibility. -/
theorem c10_determinism (lm lm' : Landmarks) (h : ∀ i, coordEq (lm i) (lm' i)) :
    detect_exercise_type lm = detect_exercise_type lm' ∧
    analyze_desk_posture lm = analyze_desk_posture lm' ∧
    analyze_squat_posture lm = analyze_squat_posture lm' := by
  refine ⟨?_, ?_, ?_⟩
  · unfold detect_exercise_type
    rcases coordEq_getLm lm lm' h .left_knee with ⟨e1, e1'⟩ | ⟨a1, b1, o1, o1', p1⟩
    · simp only [e1, e1', exBindErr]
    · simp only [o1, o1', exBindOk]
      rcases coordEq_getLm lm lm' h .right_knee with ⟨e2, e2'⟩ | ⟨a2, b2, o2, o2', p2⟩
      · simp only [e2, e2', exBindErr]
      · simp only [o2, o2', exBindOk]
        rcases coordEq_getLm lm lm' h .left_hip with ⟨e3, e3'⟩ | ⟨a3, b3, o3, o3', p3⟩
        · simp only [e3, e3', exBindErr]
        · simp only [o3, o3', exBindOk]
          rcases coordEq_getLm lm lm' h .right_hip with ⟨e4, e4'⟩ | ⟨a4, b4, o4, o4', p4⟩
          · simp only [e4, e4', exBindErr]
          · simp only [o4, o4', exBindOk]
            rw [p1, p3, p4]
  · unfold analyze_desk_posture
    rcases coordEq_getLm lm lm' h .left_shoulder with ⟨e1, e1'⟩ | ⟨a1, b1, o1, o1', p1⟩
    · simp only [e1, e1', exBindErr]
    · simp only [o1, o1', exBindOk]
      rcases coordEq_getLm lm lm' h .right_shoulder with ⟨e2, e2'⟩ | ⟨a2, b2, o2, o2', p2⟩
      · simp only [e2, e2', exBindErr]
      · simp only [o2, o2', exBindOk]
        rcases coordEq_getLm lm lm' h .left_ear with ⟨e3, e3'⟩ | ⟨a3, b3, o3, o3', p3⟩
        · simp only [e3, e3', exBindErr]
        · simp only [o3, o3', exBindOk]
          rcases coordEq_getLm lm lm' h .right_ear with ⟨e4, e4'⟩ | ⟨a4, b4, o4, o4', p4⟩
          · simp only [e4, e4', exBindErr]
          · simp only [o4, o4', exBindOk]
            rcases coordEq_getLm lm lm' h .left_hip with ⟨e5, e5'⟩ | ⟨a5, b5, o5, o5', p5⟩
            · simp only [e5, e5', exBindErr]
            · simp only [o5, o5', exBindOk]
              rcases coordEq_getLm lm lm' h .right_hip with
                ⟨e6, e6'⟩ | ⟨a6, b6, o6, o6', p6⟩
              · simp only [e6, e6', exBindErr]
              · simp only [o6, o6', exBindOk]
                rw [p1, p2, p3, p4, p5, p6]
  · unfold analyze_squat_posture
    rcases coordEq_getLm lm lm' h .left_knee with ⟨e1, e1'⟩ | ⟨a1, b1, o1, o1', p1⟩
    · simp only [e1, e1', exBindErr]
    · simp only [o1, o1', exBindOk]
      rcases coordEq_getLm lm lm' h .right_knee with ⟨e2, e2'⟩ | ⟨a2, b2, o2, o2', p2⟩
      · simp only [e2, e2', exBindErr]
      · simp only [o2, o2', exBindOk]
        rcases coordEq_getLm lm lm' h .left_ankle with ⟨e3, e3'⟩ | ⟨a3, b3, o3, o3', p3⟩
        · simp only [e3, e3', exBindErr]
        · simp only [o3, o3', exBindOk]
          rcases coordEq_getLm lm lm' h .right_ankle with ⟨e4, e4'⟩ | ⟨a4, b4, o4, o4', p4⟩
          · simp only [e4, e4', exBindErr]
          · simp only [o4, o4', exBindOk]
            rcases coordEq_getLm lm lm' h .left_hip with ⟨e5, e5'⟩ | ⟨a5, b5, o5, o5', p5⟩
            · simp only [e5, e5', exBindErr]
            · simp only [o5, o5', exBindOk]
              rcases coordEq_getLm lm lm' h .right_hip with
                ⟨e6, e6'⟩ | ⟨a6, b6, o6, o6', p6⟩
              · simp only [e6, e6', exBindErr]
              · simp only [o6, o6', exBindOk]
                rcases coordEq_getLm lm lm' h .left_shoulder with
                  ⟨e7, e7'⟩ | ⟨a7, b7, o7, o7', p7⟩
                · simp only [e7, e7', exBindErr]
                · simp only [o7, o7', exBindOk]
                  rcases coordEq_getLm lm lm' h .right_shoulder with
                    ⟨e8, e8'⟩ | ⟨a8, b8, o8, o8', p8⟩
                  · simp only [e8, e8', exBindErr]
                  · simp only [o8, o8', exBindOk]
                    rw [p1, p2, p3, p4, p5, p6, p7, p8]

theorem c10_determinism_witness :
    detect_exercise_type lmC10a = detect_exercise_type lmC10b ∧
    analyze_desk_posture lmC10a = analyze_desk_posture lmC10b ∧
    analyze_squat_posture lmC10a = analyze_squat_posture lmC10b :=
  c10_determinism lmC10a lmC10b (fun _ => ⟨rfl, rfl⟩)

end PostureApp
